import Mathlib

/-!
Verification development for the meeting-summarizer service (`app.py`).
The Python functions `parse_llm_response`, `call_ai_service`, `allowed_file`
and the Flask handler `summarize_transcript` are shallowly embedded over
`List Char`.  Case-insensitivity is modelled as ASCII case folding
(`Char.toLower`), which agrees with Python for all ASCII inputs, and all
string primitives (`strip`, `lower`, `split`, `splitlines`, the regex
searches used by the parser) are translated directly from the source.
-/

namespace MeetingSummarizer

/-- Characters treated as whitespace by Python `str.strip` and by the
regex class `\s` (ASCII range). -/
def isPyWhitespace (c : Char) : Bool :=
  c = ' ' || c = '\t' || c = '\n' || c = '\r' || c = '\x0b' || c = '\x0c'

/-- Python `str.lstrip` with no argument. -/
def lstrip (s : List Char) : List Char :=
  s.dropWhile isPyWhitespace

/-- Python `str.rstrip` with no argument. -/
def rstrip (s : List Char) : List Char :=
  (s.reverse.dropWhile isPyWhitespace).reverse

/-- Python `str.strip` with no argument. -/
def strip (s : List Char) : List Char :=
  rstrip (lstrip s)

/-- Python `str.lower`, restricted to ASCII case folding. -/
def lowerStr (s : List Char) : List Char :=
  s.map Char.toLower

/-- Boolean test that `p` is an initial segment of `s`
(Python `str.startswith`). -/
def startsWithList : List Char → List Char → Bool
  | [], _ => true
  | _ :: _, [] => false
  | p :: ps, c :: cs => p = c && startsWithList ps cs

/-- First index at or after the current position where `pat` occurs in
`text`; the `i` argument counts positions already passed. -/
def findSubAux (pat : List Char) : List Char → Nat → Option Nat
  | [], i => if pat.isEmpty then some i else none
  | c :: cs, i =>
    if startsWithList pat (c :: cs) then some i else findSubAux pat cs (i + 1)

/-- Index of the first case-insensitive occurrence of `pat` in `text`,
modelling `re.search` with `re.IGNORECASE` for a literal pattern. -/
def findCI (pat text : List Char) : Option Nat :=
  findSubAux (lowerStr pat) (lowerStr text) 0

/-- Python `str.split` on a single newline character. -/
def splitNl : List Char → List (List Char)
  | [] => [[]]
  | c :: cs =>
    if c = '\n' then [] :: splitNl cs
    else
      match splitNl cs with
      | [] => [[c]]
      | l :: ls => (c :: l) :: ls

/-- Line-boundary characters recognised by Python `str.splitlines`. -/
def isLineBreakChar (c : Char) : Bool :=
  c = '\n' || c = '\r' || c = '\x0b' || c = '\x0c' || c = '\x1c' ||
  c = '\x1d' || c = '\x1e' || c = '\x85' || c = '\u2028' || c = '\u2029'

/-- Worker for `splitlinesPy`; `acc` holds the current line reversed. -/
def splitlinesAux (acc : List Char) : List Char → List (List Char)
  | [] => if acc.isEmpty then [] else [acc.reverse]
  | '\r' :: '\n' :: rest => acc.reverse :: splitlinesAux [] rest
  | c :: rest =>
    if isLineBreakChar c then acc.reverse :: splitlinesAux [] rest
    else splitlinesAux (c :: acc) rest

/-- Python `str.splitlines` (no trailing empty line, `\r\n` is one break). -/
def splitlinesPy (s : List Char) : List (List Char) :=
  splitlinesAux [] s

/-- Python `re.sub` of the anchored pattern removing leading whitespace,
one bullet character `*` or `-`, and following whitespace; when the
pattern does not match at the start the string is unchanged. -/
def reSubBullet (d : List Char) : List Char :=
  match d.dropWhile isPyWhitespace with
  | [] => d
  | c :: rest =>
    if c = '*' || c = '-' then rest.dropWhile isPyWhitespace else d

/-- Python `str.startswith` against the tuple of bullet markers. -/
def startsWithBullet : List Char → Bool
  | [] => false
  | c :: _ => c = '*' || c = '-'

/-- Record returned by `parse_llm_response` (the dict literal at the end
of the Python function). -/
structure ParsedResult where
  summary : List Char
  decisions : List (List Char)
  action_items : List (List Char)
deriving Repr, DecidableEq

/-- The regex search for the span between the first occurrence of
`Summary:` and the following `Key Decisions:`; `some g` is `group(1)`. -/
def summaryMatch (text : List Char) : Option (List Char) :=
  match findCI "Summary:".data text with
  | none => none
  | some i =>
    let rest := text.drop (i + 8)
    match findCI "Key Decisions:".data rest with
    | none => none
    | some j => some (rest.take j)

/-- The regex search for the span between the first occurrence of
`Key Decisions:` and the following `Action Items:`. -/
def decisionsMatch (text : List Char) : Option (List Char) :=
  match findCI "Key Decisions:".data text with
  | none => none
  | some i =>
    let rest := text.drop (i + 14)
    match findCI "Action Items:".data rest with
    | none => none
    | some j => some (rest.take j)

/-- The regex search for everything after the first `Action Items:`. -/
def actionItemsMatch (text : List Char) : Option (List Char) :=
  match findCI "Action Items:".data text with
  | none => none
  | some i => some (text.drop (i + 13))

/-- Body of the two identical list-extraction blocks of
`parse_llm_response` (decisions and action items): the comprehension
pipeline plus the whole-block fallback, run on the raw match group. -/
def sectionList : Option (List Char) → List (List Char)
  | none => []
  | some g =>
    let st := strip g
    let items : List (List Char) :=
      if lowerStr st ≠ "none".data then
        let l1 := ((splitNl st).filter
          (fun d => startsWithBullet (strip d) || !(strip d).isEmpty)).map strip
        let l2 := (l1.filter (fun d => !(strip d).isEmpty)).map
          (fun d => strip (reSubBullet d))
        l2.filter (fun d => !d.isEmpty)
      else []
    if items.isEmpty ∧ lowerStr st ≠ "none".data ∧ st ≠ [] then
      if st ≠ [] then [st] else []
    else items

/-- The body of the `try` block of `parse_llm_response`.  The argument is
the Python value passed for `response_text`: `some t` is the string `t`
and `none` is the value `None`, on which the first `re.search` raises a
`TypeError`, modelled as `Except.error`. -/
def parse_extract :
    Option (List Char) →
    Except Unit (List Char × List (List Char) × List (List Char))
  | none => Except.error ()
  | some response_text =>
    let sm := summaryMatch response_text
    let dm := decisionsMatch response_text
    let am := actionItemsMatch response_text
    let summary : List Char :=
      match sm with
      | some g =>
        let st := strip g
        if lowerStr st ≠ "none".data then st else "None provided.".data
      | none => "Could not parse summary.".data
    let decisions := sectionList dm
    let action_items := sectionList am
    let summary :=
      if sm = none ∧ dm = none ∧ am = none ∧ response_text ≠ [] then
        let first_few_lines :=
          List.intercalate "\n".data ((splitlinesPy response_text).take 5)
        if 20 < first_few_lines.length then
          first_few_lines ++ " (Note: Full structure parsing failed)".data
        else summary
      else summary
    Except.ok (summary, decisions, action_items)

/-- The values of the local variables `summary`, `decisions`,
`action_items` when control reaches the final `return`: the `try` body
result, or the `except` branch values. -/
def extractedFields (t : Option (List Char)) :
    List Char × List (List Char) × List (List Char) :=
  match parse_extract t with
  | Except.ok r => r
  | Except.error _ =>
    ("Error parsing LLM output. Raw output might be available in logs.".data,
     [], [])

/-- The dict literal returned by `parse_llm_response`: empty lists are
replaced by a one-element placeholder chosen by whether the summary
starts with `Error parsing`. -/
def finalize (f : List Char × List (List Char) × List (List Char)) :
    ParsedResult :=
  { summary := f.1
  , decisions :=
      if !f.2.1.isEmpty then f.2.1
      else [if !startsWithList "Error parsing".data f.1 then
              "None identified.".data else []]
  , action_items :=
      if !f.2.2.isEmpty then f.2.2
      else [if !startsWithList "Error parsing".data f.1 then
              "None identified.".data else []] }

/-- Python `parse_llm_response` on an arbitrary argument (string or
`None`). -/
def parse_llm_response_py (t : Option (List Char)) : ParsedResult :=
  finalize (extractedFields t)

/-- Python `parse_llm_response` applied to a string. -/
def parse_llm_response (response_text : List Char) : ParsedResult :=
  parse_llm_response_py (some response_text)

/-- Outcome of the single `model.generate_content` call made for a given
transcript: either the reply text `response.text`, or an exception whose
`str(e)` is the carried message. -/
inductive ApiOutcome where
  | ok (reply : List Char)
  | err (msg : List Char)
deriving Repr, DecidableEq

/-- Python `call_ai_service`.  `configured` is the truth of
`GOOGLE_API_KEY and hasattr(genai, "GenerativeModel")` fixed at process
startup; `api` abstracts the external Gemini call, mapping the transcript
to the outcome of `model.generate_content` on the prompt built from it. -/
def call_ai_service (configured : Bool) (api : List Char → ApiOutcome)
    (transcript_text : List Char) : ParsedResult :=
  if !configured then
    { summary := "AI service is not configured.".data
    , decisions := [], action_items := [] }
  else
    match api transcript_text with
    | ApiOutcome.ok reply => parse_llm_response reply
    | ApiOutcome.err e =>
      { summary := "Error communicating with AI service: ".data ++ e
      , decisions := [], action_items := [] }

/-- Result of `request.get_json()` when `request.is_json` holds:
`falsy` is a `None` or empty payload, `dict f` a dict whose
`.get("transcript_text")` is `f`. -/
inductive JsonBody where
  | falsy
  | dict (transcript_text : Option (List Char))
deriving Repr, DecidableEq

/-- Decidable equality for `Except`, needed to derive it for requests. -/
instance instDecEqExcept {ε α : Type} [DecidableEq ε] [DecidableEq α] :
    DecidableEq (Except ε α)
  | Except.ok a, Except.ok b =>
    if h : a = b then isTrue (by rw [h])
    else isFalse (by intro hh; cases hh; exact h rfl)
  | Except.ok _, Except.error _ => isFalse (by intro h; cases h)
  | Except.error _, Except.ok _ => isFalse (by intro h; cases h)
  | Except.error a, Except.error b =>
    if h : a = b then isTrue (by rw [h])
    else isFalse (by intro hh; cases hh; exact h rfl)

/-- An entry of `request.files`: the uploaded filename and the outcome of
`file.read().decode("utf-8")`, with `Except.error e` an exception whose
message is `e`. -/
structure UploadedFile where
  filename : List Char
  read_utf8 : Except (List Char) (List Char)
deriving Repr, DecidableEq

/-- The parts of the Flask request that `summarize_transcript` reads:
`json` is `none` when `request.is_json` is false; `form_transcript` is the
`transcript_text` form field when present; `transcript_file` the uploaded
file when present. -/
structure HttpRequest where
  json : Option JsonBody
  form_transcript : Option (List Char)
  transcript_file : Option UploadedFile
deriving Repr, DecidableEq

/-- An HTTP response from the handler: 200 with the result JSON, 400 with
an error body, or 500 with an error body. -/
inductive HandlerResponse where
  | ok (result : ParsedResult)
  | badRequest (error : List Char)
  | serverError (error : List Char)
deriving Repr, DecidableEq

/-- Python truthiness of the `transcript_text` variable (either `None` or
a string). -/
def truthyOpt : Option (List Char) → Bool
  | none => false
  | some s => !s.isEmpty

/-- Python `allowed_file`: the filename contains a dot and the piece
after the last dot lowercases to `txt`. -/
def allowed_file (filename : List Char) : Bool :=
  filename.contains '.' &&
    lowerStr ((filename.reverse.takeWhile (fun c => c ≠ '.')).reverse) =
      "txt".data

/-- Body of the handler: `"Invalid JSON payload. Expected 'transcript_text'."` -/
def invalidJsonMsg : List Char :=
  "Invalid JSON payload. Expected \x27transcript_text\x27.".data

/-- Body of the handler: `"Invalid file type. ..."` -/
def invalidFileMsg : List Char :=
  "Invalid file type. Please upload a .txt file or provide text via \x27transcript_text\x27.".data

/-- Body of the handler: `"No transcript content provided. ..."` -/
def noContentMsg : List Char :=
  "No transcript content provided. Use \x27transcript_text\x27 in JSON/form or \x27transcript_file\x27 for file upload.".data

/-- Body of the handler: `"An unexpected error occurred during summarization."` -/
def summarizeErrMsg : List Char :=
  "An unexpected error occurred during summarization.".data

/-- The tail of the handler: the final emptiness check followed by the
guarded call to the AI service, whose possible exception is modelled by
`Except.error`. -/
def finishWith (ai : List Char → Except (List Char) ParsedResult) :
    Option (List Char) → HandlerResponse
  | none => HandlerResponse.badRequest noContentMsg
  | some s =>
    if s.isEmpty then HandlerResponse.badRequest noContentMsg
    else
      match ai s with
      | Except.ok r => HandlerResponse.ok r
      | Except.error _ => HandlerResponse.serverError summarizeErrMsg

/-- The value of the local `transcript_text` after the JSON and form
steps of the handler (before the file step). -/
def selectedText (req : HttpRequest) : Option (List Char) :=
  let t0 : Option (List Char) :=
    match req.json with
    | some (JsonBody.dict f) => f
    | _ => none
  if truthyOpt t0 then t0
  else
    match req.form_transcript with
    | some ft => if (strip ft).isEmpty then t0 else some (strip ft)
    | none => t0

/-- Python `summarize_transcript`, the `POST /api/summarize` handler.
`ai` abstracts the statement `call_ai_service(transcript_text)` inside
the final `try` block, with `Except.error` a raised exception. -/
def summarize_transcript (ai : List Char → Except (List Char) ParsedResult)
    (req : HttpRequest) : HandlerResponse :=
  match req.json with
  | some JsonBody.falsy => HandlerResponse.badRequest invalidJsonMsg
  | _ =>
    let t1 := selectedText req
    if truthyOpt t1 then finishWith ai t1
    else
      match req.transcript_file with
      | none => finishWith ai t1
      | some f =>
        if f.filename.isEmpty then finishWith ai t1
        else if allowed_file f.filename then
          match f.read_utf8 with
          | Except.ok content => finishWith ai (some content)
          | Except.error e =>
            HandlerResponse.serverError ("Error processing file: ".data ++ e)
        else HandlerResponse.badRequest invalidFileMsg

/-- The body that the file-read 500 branch would produce for this
request: defined when the request carries a file whose read raised. -/
def fileReadErrorBody (req : HttpRequest) : Option (List Char) :=
  match req.transcript_file with
  | some f =>
    match f.read_utf8 with
    | Except.error e => some ("Error processing file: ".data ++ e)
    | Except.ok _ => none
  | none => none

/-- An AI service stub that always succeeds with an empty result. -/
def aiOk : List Char → Except (List Char) ParsedResult :=
  fun _ => Except.ok { summary := [], decisions := [], action_items := [] }

/-- An AI service stub that always raises with message `boom`. -/
def aiErr : List Char → Except (List Char) ParsedResult :=
  fun _ => Except.error "boom".data

/-- A one-element list built from a negated conditional equals the one
built from the conditional with swapped branches. -/
theorem singletonIteNot (b : Bool) (x y : List Char) :
    [if !b then x else y] = [if b then y else x] := by
  cases b <;> rfl

/-- Flipping the branches of a conditional on a negated boolean test. -/
theorem iteFalseFlip {α : Type} (b : Bool) (x y : α) :
    (if b = false then x else y) = (if b = true then y else x) := by
  cases b <;> simp

/-- Dropping a satisfied predicate from a list all of whose elements
satisfy it leaves nothing. -/
theorem dropWhile_all_eq_nil {p : Char → Bool} (w : List Char)
    (h : w.all p = true) : w.dropWhile p = [] := by
  induction w with
  | nil => rfl
  | cons c cs ih =>
    rw [List.all_cons, Bool.and_eq_true] at h
    rw [List.dropWhile_cons, if_pos h.1]
    exact ih h.2

/-- Python `strip` of an all-whitespace string is empty. -/
theorem strip_of_all_whitespace (w : List Char)
    (h : w.all isPyWhitespace = true) : strip w = [] := by
  unfold strip lstrip
  rw [dropWhile_all_eq_nil w h]
  rfl

/-- C1: the concrete three-section reply parses to the expected summary,
decisions and action items. -/
theorem C1_roundtrip :
    parse_llm_response ("Summary:\nTeam agreed on plan.\n\nKey Decisions:\n* Ship v2\n* Delay v3\n\nAction Items:\n* Task: write docs, Assigned to: Dana, Deadline: Friday").data =
      { summary := "Team agreed on plan.".data
      , decisions := ["Ship v2".data, "Delay v3".data]
      , action_items :=
          ["Task: write docs, Assigned to: Dana, Deadline: Friday".data] } := by
  decide

/-- C2 counterexample: a reply whose decisions span strips to `none`
case-insensitively, but whose extracted summary happens to start with
`Error parsing`, yields decisions `[""]` and not `["None identified."]`. -/
theorem C2_counterexample :
    decisionsMatch ("Summary:Error parsing X\nKey Decisions:\nnone\nAction Items:\nnone").data =
      some "\nnone\n".data ∧
    lowerStr (strip "\nnone\n".data) = "none".data ∧
    (parse_llm_response ("Summary:Error parsing X\nKey Decisions:\nnone\nAction Items:\nnone").data).decisions ≠
      ["None identified.".data] := by
  refine ⟨by decide, by decide, by decide⟩

/-- C2 amended: when the span between `Key Decisions:` and
`Action Items:` strips to `none` case-insensitively, the final decisions
list is `["None identified."]`, unless the returned summary starts with
`Error parsing`, in which case it is `[""]`. -/
theorem C2_amended (t g : List Char)
    (hg : decisionsMatch t = some g)
    (hn : lowerStr (strip g) = "none".data) :
    (parse_llm_response t).decisions =
      [if startsWithList "Error parsing".data (parse_llm_response t).summary
       then ([] : List Char) else "None identified.".data] := by
  simp only [parse_llm_response, parse_llm_response_py, extractedFields,
    parse_extract, hg, sectionList, hn, ne_eq, not_true_eq_false,
    if_false, false_and, and_false, List.isEmpty_nil, if_true,
    ite_false, ite_true, finalize]
  simp
  rw [iteFalseFlip]

/-- C2 amended witness at a concrete reply whose decisions section is
`None`. -/
theorem C2_amended_witness :
    decisionsMatch ("Summary:\nS\nKey Decisions:\nNone\nAction Items:\nNone").data =
      some "\nNone\n".data ∧
    lowerStr (strip "\nNone\n".data) = "none".data ∧
    (parse_llm_response ("Summary:\nS\nKey Decisions:\nNone\nAction Items:\nNone").data).decisions =
      [if startsWithList "Error parsing".data
          (parse_llm_response ("Summary:\nS\nKey Decisions:\nNone\nAction Items:\nNone").data).summary
       then ([] : List Char) else "None identified.".data] :=
  ⟨by decide, by decide,
    C2_amended ("Summary:\nS\nKey Decisions:\nNone\nAction Items:\nNone").data
      "\nNone\n".data (by decide) (by decide)⟩

/-- C3: when none of the three markers occurs in a non-empty reply, the
summary is the newline-join of the first five lines suffixed with the
parse-failure note when that excerpt is longer than 20 characters, and
stays at the default placeholder otherwise. -/
theorem C3_no_marker_fallback (t : List Char)
    (h1 : findCI "Summary:".data t = none)
    (h2 : findCI "Key Decisions:".data t = none)
    (h3 : findCI "Action Items:".data t = none)
    (h4 : t ≠ []) :
    (20 < (List.intercalate "\n".data ((splitlinesPy t).take 5)).length →
      (parse_llm_response t).summary =
        List.intercalate "\n".data ((splitlinesPy t).take 5) ++
          " (Note: Full structure parsing failed)".data) ∧
    ((List.intercalate "\n".data ((splitlinesPy t).take 5)).length ≤ 20 →
      (parse_llm_response t).summary = "Could not parse summary.".data) := by
  have hsm : summaryMatch t = none := by
    unfold summaryMatch; rw [h1]
  have hdm : decisionsMatch t = none := by
    unfold decisionsMatch; rw [h2]
  have ham : actionItemsMatch t = none := by
    unfold actionItemsMatch; rw [h3]
  constructor <;> intro hl <;>
    simp only [parse_llm_response, parse_llm_response_py, extractedFields,
      parse_extract, hsm, hdm, ham, h4, ne_eq, not_false_eq_true,
      and_self, and_true, true_and, if_true, ite_true, finalize]
  · rw [if_pos hl]
  · rw [if_neg (Nat.not_lt.mpr hl)]

/-- C3 witness at a concrete marker-free reply longer than 20
characters. -/
theorem C3_witness :
    findCI "Summary:".data "this is a reply without any markers at all".data = none ∧
    findCI "Key Decisions:".data "this is a reply without any markers at all".data = none ∧
    findCI "Action Items:".data "this is a reply without any markers at all".data = none ∧
    "this is a reply without any markers at all".data ≠ [] ∧
    (parse_llm_response "this is a reply without any markers at all".data).summary =
      "this is a reply without any markers at all (Note: Full structure parsing failed)".data := by
  refine ⟨by decide, by decide, by decide, by decide, ?_⟩
  have h := (C3_no_marker_fallback "this is a reply without any markers at all".data
    (by decide) (by decide) (by decide) (by decide)).1 (by decide)
  rw [h]
  decide

/-- C4: both returned lists are never empty; a semantically empty list is
replaced by the single placeholder `["None identified."]`, or by `[""]`
when the summary starts with `Error parsing`, and a non-empty extracted
list is passed through unchanged; the rule applies independently to
decisions and action items. -/
theorem C4_placeholder_invariant (t : Option (List Char)) :
    (parse_llm_response_py t).decisions ≠ [] ∧
    (parse_llm_response_py t).action_items ≠ [] ∧
    ((extractedFields t).2.1 ≠ [] →
      (parse_llm_response_py t).decisions = (extractedFields t).2.1) ∧
    ((extractedFields t).2.1 = [] →
      (parse_llm_response_py t).decisions =
        [if startsWithList "Error parsing".data (extractedFields t).1
         then ([] : List Char) else "None identified.".data]) ∧
    ((extractedFields t).2.2 ≠ [] →
      (parse_llm_response_py t).action_items = (extractedFields t).2.2) ∧
    ((extractedFields t).2.2 = [] →
      (parse_llm_response_py t).action_items =
        [if startsWithList "Error parsing".data (extractedFields t).1
         then ([] : List Char) else "None identified.".data]) := by
  rcases h : extractedFields t with ⟨s, rest⟩
  rcases rest with ⟨d, a⟩
  simp only [parse_llm_response_py, h, finalize]
  cases d <;> cases a <;>
    cases hsw : startsWithList "Error parsing".data s <;>
      simp [hsw]

/-- C4 witness: at a concrete short reply the extracted decisions list is
empty and the returned list is the placeholder. -/
theorem C4_witness :
    (extractedFields (some "hi".data)).2.1 = [] ∧
    (parse_llm_response_py (some "hi".data)).decisions =
      [if startsWithList "Error parsing".data
          (extractedFields (some "hi".data)).1
       then ([] : List Char) else "None identified.".data] :=
  ⟨by decide, (C4_placeholder_invariant (some "hi".data)).2.2.2.1 (by decide)⟩

/-- C5: whenever the extraction step raises (modelled as `Except.error`,
which happens on a `None` argument), the parser still returns a record
whose summary is the fixed generic parse-error message and whose two
lists are the parse-error placeholder `[""]`. -/
theorem C5_parse_error_recovery (t : Option (List Char))
    (h : parse_extract t = Except.error ()) :
    parse_llm_response_py t =
      { summary :=
          "Error parsing LLM output. Raw output might be available in logs.".data
      , decisions := [[]], action_items := [[]] } := by
  cases t with
  | none => decide
  | some s => simp [parse_extract] at h

/-- C5 witness: the `None` argument makes the extraction raise, and the
parser returns the generic parse-error record. -/
theorem C5_witness :
    parse_extract (none : Option (List Char)) = Except.error () ∧
    parse_llm_response_py none =
      { summary :=
          "Error parsing LLM output. Raw output might be available in logs.".data
      , decisions := [[]], action_items := [[]] } :=
  ⟨rfl, C5_parse_error_recovery none rfl⟩

/-- C6: when the service is not configured, or the external call raises,
`call_ai_service` returns a record whose summary is the fixed
not-configured message, respectively the error string embedding the
raised message, and whose two lists are truly empty, not the parser
placeholder `["None identified."]`. -/
theorem C6_failure_empty_lists (transcript e : List Char)
    (api : List Char → ApiOutcome)
    (he : api transcript = ApiOutcome.err e) :
    call_ai_service false api transcript =
      { summary := "AI service is not configured.".data
      , decisions := [], action_items := [] } ∧
    call_ai_service true api transcript =
      { summary := "Error communicating with AI service: ".data ++ e
      , decisions := [], action_items := [] } ∧
    (call_ai_service false api transcript).decisions ≠
      ["None identified.".data] ∧
    (call_ai_service true api transcript).decisions ≠
      ["None identified.".data] ∧
    (call_ai_service true api transcript).action_items ≠
      ["None identified.".data] := by
  refine ⟨by simp [call_ai_service], by simp [call_ai_service, he], ?_, ?_, ?_⟩ <;>
    simp [call_ai_service, he]

/-- C6 witness at a concrete transcript and an always-raising API. -/
theorem C6_witness :
    (fun (_ : List Char) => ApiOutcome.err "kaput".data) "t".data =
      ApiOutcome.err "kaput".data ∧
    call_ai_service true (fun _ => ApiOutcome.err "kaput".data) "t".data =
      { summary := "Error communicating with AI service: ".data ++ "kaput".data
      , decisions := [], action_items := [] } :=
  ⟨rfl,
    (C6_failure_empty_lists "t".data "kaput".data
      (fun _ => ApiOutcome.err "kaput".data) rfl).2.1⟩

/-- C7 counterexample: a request with a non-empty JSON transcript and an
uploaded `notes.pdf` (a disallowed extension) is answered 200, not 400;
the file check is skipped once an earlier source yielded text. -/
theorem C7_counterexample :
    allowed_file "notes.pdf".data = false ∧
    summarize_transcript aiOk
      { json := some (JsonBody.dict (some "This is a test transcript.".data))
      , form_transcript := none
      , transcript_file :=
          some { filename := "notes.pdf".data
               , read_utf8 := Except.ok "x".data } } =
      HandlerResponse.ok
        { summary := [], decisions := [], action_items := [] } := by
  refine ⟨by decide, by decide⟩

/-- C7 amended: an uploaded file with a disallowed extension is rejected
with the 400 invalid-file-type message provided the JSON body was not
itself rejected and neither the JSON nor the form field produced a
non-empty transcript; otherwise the file is ignored. -/
theorem C7_amended (ai : List Char → Except (List Char) ParsedResult)
    (req : HttpRequest) (f : UploadedFile)
    (hjson : req.json ≠ some JsonBody.falsy)
    (hsel : truthyOpt (selectedText req) = false)
    (hfile : req.transcript_file = some f)
    (hname : f.filename ≠ [])
    (hext : allowed_file f.filename = false) :
    summarize_transcript ai req = HandlerResponse.badRequest invalidFileMsg := by
  rcases req with ⟨j, fo, fi⟩
  rcases f with ⟨fn, ru⟩
  simp only at hfile
  subst hfile
  cases fn with
  | nil => exact absurd rfl hname
  | cons c cs =>
    match j with
    | some JsonBody.falsy => exact absurd rfl hjson
    | none =>
      simp [summarize_transcript, hsel, hext]
    | some (JsonBody.dict x) =>
      simp [summarize_transcript, hsel, hext]

/-- C7 amended witness: the bad file alone, with no other source, is
rejected with the invalid-file-type message. -/
theorem C7_amended_witness :
    ((none : Option JsonBody) ≠ some JsonBody.falsy) ∧
    truthyOpt (selectedText
      { json := none, form_transcript := none
      , transcript_file :=
          some { filename := "notes.pdf".data
               , read_utf8 := Except.ok "x".data } }) = false ∧
    allowed_file "notes.pdf".data = false ∧
    summarize_transcript aiOk
      { json := none, form_transcript := none
      , transcript_file :=
          some { filename := "notes.pdf".data
               , read_utf8 := Except.ok "x".data } } =
      HandlerResponse.badRequest invalidFileMsg :=
  ⟨by decide, by decide, by decide,
    C7_amended aiOk
      { json := none, form_transcript := none
      , transcript_file :=
          some { filename := "notes.pdf".data
               , read_utf8 := Except.ok "x".data } }
      { filename := "notes.pdf".data, read_utf8 := Except.ok "x".data }
      (by decide) (by decide) rfl (by decide) (by decide)⟩

/-- C9: when a non-empty JSON `transcript_text` is present, the handler
feeds exactly the JSON value to the AI service, whatever the form field
holds. -/
theorem C9_json_priority (ai : List Char → Except (List Char) ParsedResult)
    (j f : List Char) (file : Option UploadedFile)
    (hj : j ≠ []) (_hf : f ≠ []) :
    summarize_transcript ai
      { json := some (JsonBody.dict (some j)), form_transcript := some f
      , transcript_file := file } =
      match ai j with
      | Except.ok r => HandlerResponse.ok r
      | Except.error _ => HandlerResponse.serverError summarizeErrMsg := by
  have hje : j.isEmpty = false := by
    cases j with
    | nil => exact absurd rfl hj
    | cons c cs => rfl
  simp [summarize_transcript, selectedText, truthyOpt, hje, finishWith]

/-- C9 witness: with both fields set, the response is the AI result on
the JSON text. -/
theorem C9_witness :
    ("json text".data ≠ ([] : List Char)) ∧
    ("form text".data ≠ ([] : List Char)) ∧
    summarize_transcript aiOk
      { json := some (JsonBody.dict (some "json text".data))
      , form_transcript := some "form text".data
      , transcript_file := none } =
      HandlerResponse.ok
        { summary := [], decisions := [], action_items := [] } :=
  ⟨by decide, by decide,
    (C9_json_priority aiOk "json text".data "form text".data none
      (by decide) (by decide)).trans rfl⟩

/-- C10: the emptiness check is asymmetric: a whitespace-only form field
alone is rejected with the 400 no-content message because the form value
is stripped first, while a non-empty whitespace-only JSON value is
accepted and handed to the AI service unchanged. -/
theorem C10_whitespace_asymmetry
    (ai : List Char → Except (List Char) ParsedResult) (w : List Char)
    (hw : w.all isPyWhitespace = true) :
    summarize_transcript ai
      { json := none, form_transcript := some w, transcript_file := none } =
      HandlerResponse.badRequest noContentMsg ∧
    (w ≠ [] →
      summarize_transcript ai
        { json := some (JsonBody.dict (some w)), form_transcript := none
        , transcript_file := none } =
        match ai w with
        | Except.ok r => HandlerResponse.ok r
        | Except.error _ => HandlerResponse.serverError summarizeErrMsg) := by
  constructor
  · simp [summarize_transcript, selectedText, truthyOpt,
      strip_of_all_whitespace w hw, finishWith]
  · intro hne
    have hje : w.isEmpty = false := by
      cases w with
      | nil => exact absurd rfl hne
      | cons c cs => rfl
    simp [summarize_transcript, selectedText, truthyOpt, hje, finishWith]

/-- C10 witness at the one-space string. -/
theorem C10_witness :
    (" ".data.all isPyWhitespace = true) ∧
    summarize_transcript aiOk
      { json := none, form_transcript := some " ".data
      , transcript_file := none } =
      HandlerResponse.badRequest noContentMsg ∧
    summarize_transcript aiOk
      { json := some (JsonBody.dict (some " ".data)), form_transcript := none
      , transcript_file := none } =
      HandlerResponse.ok
        { summary := [], decisions := [], action_items := [] } :=
  ⟨by decide,
    (C10_whitespace_asymmetry aiOk " ".data (by decide)).1,
    ((C10_whitespace_asymmetry aiOk " ".data (by decide)).2 (by decide)).trans
      rfl⟩

/-- The final handler step only ever produces a 200, the generic 500
summarization message, or the 400 no-content message. -/
theorem finishWith_bodies (ai : List Char → Except (List Char) ParsedResult)
    (t : Option (List Char)) :
    (∀ b, finishWith ai t = HandlerResponse.serverError b →
      b = summarizeErrMsg) ∧
    (∀ b, finishWith ai t = HandlerResponse.badRequest b →
      b = noContentMsg) := by
  constructor <;> intro b hb
  · cases t with
    | none => simp [finishWith] at hb
    | some s =>
      simp only [finishWith] at hb
      split at hb
      · cases hb
      · split at hb
        · cases hb
        · cases hb; rfl
  · cases t with
    | none => simp only [finishWith] at hb; cases hb; rfl
    | some s =>
      simp only [finishWith] at hb
      split at hb
      · cases hb; rfl
      · split at hb <;> cases hb

/-- C8 counterexample: a 500 response caused by a failing read of an
uploaded `.txt` file embeds the raw exception text (`boom`) in the body
sent to the client. -/
theorem C8_counterexample :
    summarize_transcript aiOk
      { json := none, form_transcript := none
      , transcript_file :=
          some { filename := "notes.txt".data
               , read_utf8 := Except.error "boom".data } } =
      HandlerResponse.serverError ("Error processing file: boom".data) ∧
    (findSubAux "boom".data "Error processing file: boom".data 0).isSome =
      true := by
  refine ⟨by decide, by decide⟩

/-- C8 amended: a 500 body is either the fixed generic summarization
message or the file-read message embedding the exception text, and a 400
body is always one of the three fixed validation messages, carried
verbatim. -/
theorem C8_amended (ai : List Char → Except (List Char) ParsedResult)
    (req : HttpRequest) :
    (∀ b, summarize_transcript ai req = HandlerResponse.serverError b →
      b = summarizeErrMsg ∨ some b = fileReadErrorBody req) ∧
    (∀ b, summarize_transcript ai req = HandlerResponse.badRequest b →
      b = invalidJsonMsg ∨ b = invalidFileMsg ∨ b = noContentMsg) := by
  rcases req with ⟨j, fo, fi⟩
  constructor <;> intro b hb
  · have hgen : ∀ t, finishWith ai t = HandlerResponse.serverError b →
        b = summarizeErrMsg ∨
          some b = fileReadErrorBody ⟨j, fo, fi⟩ :=
      fun t ht => Or.inl ((finishWith_bodies ai t).1 b ht)
    match j with
    | some JsonBody.falsy =>
      rw [show summarize_transcript ai ⟨some JsonBody.falsy, fo, fi⟩ =
        HandlerResponse.badRequest invalidJsonMsg from rfl] at hb
      cases hb
    | none =>
      simp only [summarize_transcript] at hb
      split at hb
      · exact hgen _ hb
      · cases fi with
        | none => exact hgen _ hb
        | some f =>
          simp only at hb
          split at hb
          · exact hgen _ hb
          · split at hb
            · split at hb
              · exact hgen _ hb
              · cases hb
                rename_i e he
                refine Or.inr ?_
                simp [fileReadErrorBody, he]
            · cases hb
    | some (JsonBody.dict x) =>
      simp only [summarize_transcript] at hb
      split at hb
      · exact hgen _ hb
      · cases fi with
        | none => exact hgen _ hb
        | some f =>
          simp only at hb
          split at hb
          · exact hgen _ hb
          · split at hb
            · split at hb
              · exact hgen _ hb
              · cases hb
                rename_i e he
                refine Or.inr ?_
                simp [fileReadErrorBody, he]
            · cases hb
  · have hgen : ∀ t, finishWith ai t = HandlerResponse.badRequest b →
        b = invalidJsonMsg ∨ b = invalidFileMsg ∨ b = noContentMsg :=
      fun t ht => Or.inr (Or.inr ((finishWith_bodies ai t).2 b ht))
    match j with
    | some JsonBody.falsy =>
      rw [show summarize_transcript ai ⟨some JsonBody.falsy, fo, fi⟩ =
        HandlerResponse.badRequest invalidJsonMsg from rfl] at hb
      cases hb
      exact Or.inl rfl
    | none =>
      simp only [summarize_transcript] at hb
      split at hb
      · exact hgen _ hb
      · cases fi with
        | none => exact hgen _ hb
        | some f =>
          simp only at hb
          split at hb
          · exact hgen _ hb
          · split at hb
            · split at hb
              · exact hgen _ hb
              · cases hb
            · cases hb
              exact Or.inr (Or.inl rfl)
    | some (JsonBody.dict x) =>
      simp only [summarize_transcript] at hb
      split at hb
      · exact hgen _ hb
      · cases fi with
        | none => exact hgen _ hb
        | some f =>
          simp only at hb
          split at hb
          · exact hgen _ hb
          · split at hb
            · split at hb
              · exact hgen _ hb
              · cases hb
            · cases hb
              exact Or.inr (Or.inl rfl)

/-- C8 amended witness: a raising AI call yields the generic 500 body. -/
theorem C8_amended_witness :
    summarize_transcript aiErr
      { json := some (JsonBody.dict (some "hello there".data))
      , form_transcript := none, transcript_file := none } =
      HandlerResponse.serverError summarizeErrMsg ∧
    (summarizeErrMsg = summarizeErrMsg ∨
      some summarizeErrMsg = fileReadErrorBody
        { json := some (JsonBody.dict (some "hello there".data))
        , form_transcript := none, transcript_file := none }) :=
  ⟨by decide,
    (C8_amended aiErr
      { json := some (JsonBody.dict (some "hello there".data))
      , form_transcript := none, transcript_file := none }).1
      summarizeErrMsg (by decide)⟩

end MeetingSummarizer
